import Mathlib

/-
  Formal model of the planet-simulation core (src/src/main.ts).

  Modelling conventions:
  * JavaScript double-precision numbers are idealised as real numbers (ℝ).
  * JavaScript object identity: every `Planet` object receives a unique
    natural-number id at creation; the global `planets` array becomes
    `World`, a list of (id, state) pairs.  `other !== this` becomes
    inequality of ids, `Array.prototype.indexOf` becomes `idIndex`.
  * In-place mutation of a planet that may still be stored in the array
    is modelled by `sync`: the local copy is written back to every slot
    holding the same id (a no-op once the object has been spliced out).
  * `Array.prototype.splice(i, 1)` is `List.eraseIdx`, and
    `splice(i, 1, e)` is `spliceReplace` (replace in place when `i` is a
    valid index, append when `i = length`, exactly as in JavaScript).
  * The `for (let other of planets)` loop and the
    `for (let i = 0; i < planets.length; i++)` loop read the live,
    mutated array at every step; they are modelled by `updateLoop` and
    `animLoop`, index-driven with an explicit fuel argument.  The fuel
    equals the array length at entry; since a loop step always advances
    the index by one and splicing never lengthens the array, the fuel is
    never exhausted before the loop condition `k < length` fails, so the
    fuel-free exit branch is unreachable (see `updateLoop_fuel_stable`).
  * `generateRandomColor` and all DOM/canvas rendering are external
    effects with no influence on simulation state; random colors are
    passed in as parameters and rendering is omitted.
  * Instrumentation: the tick additionally returns `glog`, the list of
    (receiver id, source id) pairs for which a gravity update and a
    collision check were executed (the body of the `other !== this`
    branch in `Planet.update`), and `mlog`, one `MergeEvent` per
    execution of the collision branch in `Planet.checkCollision`.
    The logs are ghost output: they do not influence the state.
-/

open scoped Classical

noncomputable section

/-- Gravitational constant `G` (main.ts line 6). -/
def G : ℝ := 6.67430e-11

/-- `distanceScale` (main.ts line 8): one pixel corresponds to 1e9 m. -/
def distanceScale : ℝ := 1e9

/-- JavaScript `Math.atan2 y x` (signed zeros not modelled; `atan2 0 0 = 0`). -/
def atan2 (y x : ℝ) : ℝ :=
  if 0 < x then Real.arctan (y / x)
  else if x < 0 then
    (if 0 ≤ y then Real.arctan (y / x) + Real.pi else Real.arctan (y / x) - Real.pi)
  else
    (if 0 < y then Real.pi / 2 else if y < 0 then -(Real.pi / 2) else 0)

/-- The `Velocity` interface (main.ts lines 113-116). -/
structure Velocity where
  x : ℝ
  y : ℝ

/-- The `TrailPoint` interface (main.ts lines 118-122). -/
structure TrailPoint where
  x : ℝ
  y : ℝ
  life : ℝ

/-- The `Planet` class fields (main.ts lines 129-139). -/
structure Planet where
  x : ℝ
  y : ℝ
  radius : ℝ
  color : String
  mass : ℝ
  velocity : Velocity
  name : String
  trail : List TrailPoint
  fadeSpeed : ℝ

/-- The `Planet` constructor (main.ts lines 140-150): fresh planets start
with an empty trail and `fadeSpeed = 0.005`. -/
def Planet.make (x y radius : ℝ) (color : String) (mass : ℝ)
    (velocity : Velocity) (name : String) : Planet :=
  ⟨x, y, radius, color, mass, velocity, name, [], 0.005⟩

/-- `Planet.applyGravity` (main.ts lines 176-189): computes the force the
receiver `p` experiences from `other` and returns `p` with its velocity
updated in place; `other` is only read, never written. -/
def applyGravity (p other : Planet) (dt : ℝ) : Planet :=
  let dx := other.x - p.x
  let dy := other.y - p.y
  let distance0 := Real.sqrt (dx * dx + dy * dy)
  let distance := max distance0 1e7
  let force := (G * p.mass * other.mass) / (distance * distance)
  let angle := atan2 dy dx
  let forceX := Real.cos angle * force
  let forceY := Real.sin angle * force
  { p with velocity := ⟨p.velocity.x + forceX / p.mass * dt,
                        p.velocity.y + forceY / p.mass * dt⟩ }

/-- The collision test of `Planet.checkCollision` (main.ts lines 192-195):
Euclidean distance at most `(this.radius + other.radius) * distanceScale`,
inclusive. -/
def collides (p other : Planet) : Prop :=
  Real.sqrt ((other.x - p.x) * (other.x - p.x) + (other.y - p.y) * (other.y - p.y))
    ≤ (p.radius + other.radius) * distanceScale

/-- The fused planet built in the collision branch of `Planet.checkCollision`
(main.ts lines 197-206): summed mass, area-preserving radius, momentum-weighted
velocity, mass-weighted centroid position, color of the receiver, concatenated
name; the `Planet` constructor gives it an empty trail. -/
def fuse (p other : Planet) : Planet :=
  let newMass := p.mass + other.mass
  let newRadius := Real.sqrt (p.radius * p.radius + other.radius * other.radius)
  let newVelocity : Velocity :=
    ⟨(p.velocity.x * p.mass + other.velocity.x * other.mass) / newMass,
     (p.velocity.y * p.mass + other.velocity.y * other.mass) / newMass⟩
  let newX := (p.x * p.mass + other.x * other.mass) / newMass
  let newY := (p.y * p.mass + other.y * other.mass) / newMass
  Planet.make newX newY newRadius p.color newMass newVelocity
    (p.name ++ "+" ++ other.name)

/-- The global `planets` array (main.ts line 12): each stored object is a
unique id paired with the planet state. -/
abbrev World := List (ℕ × Planet)

/-- The object identities stored in the array. -/
def ids (w : World) : List ℕ := w.map Prod.fst

/-- `Array.prototype.indexOf` by object identity: index of the first slot
holding the given id, `none` when absent (JavaScript `-1`). -/
def idIndex (x : ℕ) : World → Option ℕ
  | [] => none
  | e :: rest => if e.1 = x then some 0 else (idIndex x rest).map (· + 1)

/-- JavaScript `planets.splice(i, 1, e)` for `0 ≤ i`: replaces the element
at `i` when `i` is a valid index; when `i ≥ length` (the start is clamped)
it deletes nothing and appends `e`. -/
def spliceReplace (w : World) (i : ℕ) (e : ℕ × Planet) : World :=
  if i < w.length then w.set i e else w ++ [e]

/-- Ghost record of one execution of the collision branch. -/
structure MergeEvent where
  thisId : ℕ
  otherId : ℕ
  newId : ℕ
  fused : Planet

/-- Result of a `Planet.checkCollision` call: the mutated array, the next
fresh id, and the ghost merge log. -/
structure CCResult where
  w : World
  nextId : ℕ
  mlog : List MergeEvent

/-- `Planet.checkCollision` (main.ts lines 191-214), acting on the array.
Mirrors the source exactly: both `indexOf` lookups are performed BEFORE
either splice, so after `splice(indexOther, 1)` the stored `indexThis` can
be stale by one position. -/
def checkCollisionW (self other : ℕ × Planet) (w : World) (nextId : ℕ) : CCResult :=
  if collides self.2 other.2 then
    let fused := fuse self.2 other.2
    let indexThis := idIndex self.1 w
    let indexOther := idIndex other.1 w
    let w1 := match indexOther with
      | some j => w.eraseIdx j
      | none => w
    let w2 := match indexThis with
      | some j => spliceReplace w1 j (nextId, fused)
      | none => w1
    ⟨w2, nextId + 1, [⟨self.1, other.1, nextId, fused⟩]⟩
  else ⟨w, nextId, []⟩

/-- Write the (possibly mutated) local object back into every array slot
holding its id; a no-op when the object is no longer stored. -/
def sync (w : World) (selfId : ℕ) (p : Planet) : World :=
  w.map fun e => if e.1 = selfId then (selfId, p) else e

/-- The trail eviction loop of `Planet.update` (main.ts lines 230-232):
drop entries from the front while the front entry's life is ≤ 0. -/
def evictFront : List TrailPoint → List TrailPoint
  | [] => []
  | q :: rest => if q.life ≤ 0 then evictFront rest else q :: rest

/-- Trail maintenance of `Planet.update` (main.ts lines 226-232): push the
current position with life 1.0, subtract `fadeSpeed` from every entry
(including the fresh one), then evict stale entries from the front. -/
def trailStep (trail : List TrailPoint) (x y fadeSpeed : ℝ) : List TrailPoint :=
  evictFront ((trail ++ [(⟨x, y, 1.0⟩ : TrailPoint)]).map fun q => { q with life := q.life - fadeSpeed })

/-- State after (a suffix of) the pairwise loop in `Planet.update`. -/
structure LoopRes where
  self : Planet
  w : World
  nextId : ℕ
  glog : List (ℕ × ℕ)
  mlog : List MergeEvent

/-- The `for (let other of planets)` loop of `Planet.update` (main.ts lines
217-222), from iteration index `k` on.  The array iterator re-reads the live
array and its length at every step.  The fuel argument only bounds the
number of steps; called with `fuel ≥ w.length - k` the zero-fuel branch is
unreachable because each step advances `k` and never lengthens the array. -/
def updateLoop (selfId : ℕ) : ℕ → Planet → World → ℕ → ℕ → ℝ → LoopRes
  | 0, self, w, nextId, _, _ => ⟨self, w, nextId, [], []⟩
  | fuel + 1, self, w, nextId, k, dt =>
    if h : k < w.length then
      let other := w[k]
      if other.1 = selfId then
        updateLoop selfId fuel self w nextId (k + 1) dt
      else
        let self1 := applyGravity self other.2 dt
        let w1 := sync w selfId self1
        let r := checkCollisionW (selfId, self1) other w1 nextId
        let rest : LoopRes := updateLoop selfId fuel self1 r.w r.nextId (k + 1) dt
        ⟨rest.self, rest.w, rest.nextId, (selfId, other.1) :: rest.glog,
          r.mlog ++ rest.mlog⟩
    else ⟨self, w, nextId, [], []⟩

/-- Result of a whole `Planet.update` call (or of a tick). -/
structure TickRes where
  w : World
  nextId : ℕ
  glog : List (ℕ × ℕ)
  mlog : List MergeEvent

/-- `Planet.update` (main.ts lines 216-233): the pairwise loop, then
position integration with the accumulated velocity, then trail
maintenance, the last two written back in place. -/
def updateBody (selfId : ℕ) (self : Planet) (w : World) (nextId : ℕ) (dt : ℝ) : TickRes :=
  let r := updateLoop selfId w.length self w nextId 0 dt
  let self1 := { r.self with x := r.self.x + r.self.velocity.x * dt,
                             y := r.self.y + r.self.velocity.y * dt }
  let w1 := sync r.w selfId self1
  let self2 := { self1 with trail := trailStep self1.trail self1.x self1.y self1.fadeSpeed }
  let w2 := sync w1 selfId self2
  ⟨w2, r.nextId, r.glog, r.mlog⟩

/-- The `for (let i = 0; i < planets.length; i++) planets[i].update()` loop
of `animate` (main.ts lines 104-107), from index `i` on; `draw()` only
renders and is omitted.  Fuel as in `updateLoop`. -/
def animLoop : ℕ → World → ℕ → ℕ → ℝ → TickRes
  | 0, w, nextId, _, _ => ⟨w, nextId, [], []⟩
  | fuel + 1, w, nextId, i, dt =>
    if h : i < w.length then
      let self := w[i]
      let r := updateBody self.1 self.2 w nextId dt
      let rest : TickRes := animLoop fuel r.w r.nextId (i + 1) dt
      ⟨rest.w, rest.nextId, r.glog ++ rest.glog, r.mlog ++ rest.mlog⟩
    else ⟨w, nextId, [], []⟩

/-- One full unpaused tick of `animate` (main.ts lines 101-110). -/
def animateTick (w : World) (nextId : ℕ) (dt : ℝ) : TickRes :=
  animLoop w.length w nextId 0 dt

/-- `getMostMassivePlanet` (main.ts lines 29-31):
`planets.reduce((max, p) => (p.mass > max.mass ? p : max), planets[0])`.
On an empty array, `planets[0]` is `undefined` and `reduce` over no elements
returns that initial value unchanged; `none` models `undefined`. -/
def getMostMassivePlanet (w : World) : Option (ℕ × Planet) :=
  match w with
  | [] => none
  | e :: _ => some (w.foldl (fun mx q => if q.2.mass > mx.2.mass then q else mx) e)

/-- The spawn-button handler (main.ts lines 253-288), after the NaN guard
(the numeric inputs are already reals here).  The random color is passed in
as a parameter.  `centerPlanet ? ... : ...` tests truthiness of the possibly
`undefined` anchor, modelled by matching on the `Option`. -/
def spawnPlanet (w : World) (nextId : ℕ) (mass radius velocityX velocityY distancePx : ℝ)
    (name color : String) (canvasW canvasH : ℝ) : World × ℕ :=
  let centerPlanet := getMostMassivePlanet w
  let distanceFromCenter := distancePx * distanceScale
  let posX := match centerPlanet with
    | some c => c.2.x + distanceFromCenter
    | none => canvasW / 2 + distanceFromCenter
  let posY := match centerPlanet with
    | some c => c.2.y
    | none => canvasH / 2
  (w ++ [(nextId, Planet.make posX posY radius color mass ⟨velocityX, velocityY⟩ name)],
    nextId + 1)

/-- Iterated trail maintenance of one body: the trail after `n` updates
whose post-integration positions are given by `f`, starting from the empty
trail of a freshly constructed planet, with the constructor's
`fadeSpeed = 0.005`. -/
def trailIter (f : ℕ → ℝ × ℝ) : ℕ → List TrailPoint
  | 0 => []
  | n + 1 => trailStep (trailIter f n) (f n).1 (f n).2 0.005

/-- The life values of a trail that has survived `m` consecutive fades:
`1 - m*0.005` at the front up to `1 - 0.005` at the back. -/
def descLives (m : ℕ) : List ℝ :=
  (List.range m).map fun i : ℕ => 1 - ((m : ℝ) - (i : ℝ)) * 0.005

/-- Front eviction on bare life values, mirroring `evictFront`. -/
def evictLives : List ℝ → List ℝ
  | [] => []
  | a :: rest => if a ≤ 0 then evictLives rest else a :: rest

/-- Concrete three-body configuration on the x-axis used to exercise a tick
in which merges happen: bodies 0 and 1 overlap, body 2 is clear of both but
within collision range of their fusion's centroid. -/
def pX : Planet := Planet.make 0 0 3 "white" 1 ⟨0, 0⟩ "X"

/-- Second body of the three-body configuration; overlaps `pX`:
their distance 6e9 is below (3+4)*1e9. -/
def pY : Planet := Planet.make 6e9 0 4 "gray" 1 ⟨0, 0⟩ "Y"

/-- Third body of the three-body configuration; 20e9 from the origin, clear
of `pX` (threshold 15e9) and of `pY` (threshold 16e9, distance 14e9 - it
does overlap pY, but pY is consumed before anyone checks this pair). -/
def pA : Planet := Planet.make 20e9 0 12 "red" 1 ⟨0, 0⟩ "A"

/-- The three-body world: ids 0, 1, 2; next fresh id 3. -/
def w3 : World := [(0, pX), (1, pY), (2, pA)]

/-- First fusion of the three-body run: bodies 0 and 1, given id 3. -/
def qF : Planet := fuse pX pY

/-- Second fusion: body 2 with the fusion `qF`, given id 4. -/
def qF2 : Planet := fuse pA qF

/-- Third fusion: body 2 again with `qF2`, given id 5. -/
def qF3 : Planet := fuse pA qF2

/-- Concrete two-body configuration far apart (distance 100e9, threshold
2e9): a tick with no merges. -/
def pS0 : Planet := Planet.make 0 0 1 "blue" 1 ⟨0, 0⟩ "S0"

/-- Second far-apart body. -/
def pS1 : Planet := Planet.make 100e9 0 1 "green" 1 ⟨0, 0⟩ "S1"

/-- The two-body world: ids 0 and 1; next fresh id 2. -/
def wS : World := [(0, pS0), (1, pS1)]

/-- State of `pS0` after one tick at `dt = 0`: only the trail changed. -/
def pS0t : Planet := { pS0 with trail := [⟨0, 0, 1.0 - 0.005⟩] }

/-- State of `pS1` after one tick at `dt = 0`: only the trail changed. -/
def pS1t : Planet := { pS1 with trail := [⟨100e9, 0, 1.0 - 0.005⟩] }

end

/-- Evaluate a square root at a perfect square. -/
lemma sqrt_eval {a b : ℝ} (hb : 0 ≤ b) (h : a = b * b) : Real.sqrt a = b := by
  rw [h, Real.sqrt_mul_self hb]

/-- With `dt = 0` a gravity update leaves the receiver unchanged. -/
lemma applyGravity_dt0 (p q : Planet) : applyGravity p q 0 = p := by
  cases p with
  | mk x y radius color mass velocity name trail fadeSpeed =>
    cases velocity with
    | mk vx vy => simp [applyGravity]

lemma length_sync (w : World) (i : ℕ) (p : Planet) : (sync w i p).length = w.length := by
  simp [sync]

lemma ids_sync (w : World) (i : ℕ) (p : Planet) : ids (sync w i p) = ids w := by
  induction w with
  | nil => rfl
  | cons e rest ih =>
    have h1 : sync (e :: rest) i p = (if e.1 = i then (i, p) else e) :: sync rest i p := rfl
    rw [h1]
    show (if e.1 = i then (i, p) else e).1 :: ids (sync rest i p) = e.1 :: ids rest
    rw [ih]
    by_cases h : e.1 = i
    · rw [if_pos h]; simp [h]
    · rw [if_neg h]

lemma idIndex_some_lt {x : ℕ} {w : World} {j : ℕ} (h : idIndex x w = some j) :
    j < w.length := by
  induction w generalizing j with
  | nil => simp [idIndex] at h
  | cons e rest ih =>
    rw [idIndex] at h
    by_cases he : e.1 = x
    · rw [if_pos he] at h
      cases h
      simp
    · rw [if_neg he] at h
      rcases hr : idIndex x rest with _ | j'
      · rw [hr] at h; cases h
      · rw [hr] at h
        cases h
        have := ih hr
        simp
        omega

lemma idIndex_eq_none {x : ℕ} {w : World} (h : x ∉ ids w) : idIndex x w = none := by
  induction w with
  | nil => rfl
  | cons e rest ih =>
    simp only [ids, List.map_cons, List.mem_cons, not_or] at h
    rw [idIndex, if_neg (fun heq => h.1 heq.symm), ih h.2]
    rfl

lemma checkCollisionW_w_length_le (s o : ℕ × Planet) (w : World) (n : ℕ) :
    (checkCollisionW s o w n).w.length ≤ w.length := by
  rw [checkCollisionW]
  by_cases hc : collides s.2 o.2
  · rw [if_pos hc]
    rcases hT : idIndex s.1 w with _ | jT <;> rcases hO : idIndex o.1 w with _ | jO <;>
        simp only [hT, hO]
    · exact le_refl _
    · exact w.length_eraseIdx_le jO
    · rw [spliceReplace, if_pos (idIndex_some_lt hT)]
      simp
    · rw [spliceReplace]
      split
      · rw [List.length_set]
        exact w.length_eraseIdx_le jO
      · rw [List.length_append]
        have h1 := List.length_eraseIdx_add_one (idIndex_some_lt hO)
        simp only [List.length_cons, List.length_nil]
        omega
  · rw [if_neg hc]

lemma checkCollisionW_not_collides (s o : ℕ × Planet) (w : World) (n : ℕ)
    (hc : ¬ collides s.2 o.2) : checkCollisionW s o w n = ⟨w, n, []⟩ := by
  rw [checkCollisionW, if_neg hc]

lemma checkCollisionW_mlog_nil {s o : ℕ × Planet} {w : World} {n : ℕ}
    (h : (checkCollisionW s o w n).mlog = []) : checkCollisionW s o w n = ⟨w, n, []⟩ := by
  by_cases hc : collides s.2 o.2
  · rw [checkCollisionW, if_pos hc] at h
    simp at h
  · exact checkCollisionW_not_collides _ _ _ _ hc

lemma updateLoop_zero (selfId : ℕ) (self : Planet) (w : World) (n k : ℕ) (dt : ℝ) :
    updateLoop selfId 0 self w n k dt = ⟨self, w, n, [], []⟩ := rfl

lemma updateLoop_succ_skip (selfId fuel : ℕ) (self : Planet) (w : World) (n k : ℕ) (dt : ℝ)
    (hk : k < w.length) (hid : (w[k]).1 = selfId) :
    updateLoop selfId (fuel + 1) self w n k dt = updateLoop selfId fuel self w n (k + 1) dt := by
  rw [updateLoop, dif_pos hk, if_pos hid]

lemma updateLoop_succ_grav (selfId fuel : ℕ) (self : Planet) (w : World) (n k : ℕ) (dt : ℝ)
    (hk : k < w.length) (hid : ¬ (w[k]).1 = selfId) :
    updateLoop selfId (fuel + 1) self w n k dt =
      (let self1 := applyGravity self (w[k]).2 dt
       let r := checkCollisionW (selfId, self1) (w[k]) (sync w selfId self1) n
       let rest : LoopRes := updateLoop selfId fuel self1 r.w r.nextId (k + 1) dt
       ⟨rest.self, rest.w, rest.nextId, (selfId, (w[k]).1) :: rest.glog, r.mlog ++ rest.mlog⟩) := by
  rw [updateLoop, dif_pos hk, if_neg hid]

lemma updateLoop_succ_exit (selfId fuel : ℕ) (self : Planet) (w : World) (n k : ℕ) (dt : ℝ)
    (hk : ¬ k < w.length) :
    updateLoop selfId (fuel + 1) self w n k dt = ⟨self, w, n, [], []⟩ := by
  rw [updateLoop, dif_neg hk]

lemma animLoop_zero (w : World) (n i : ℕ) (dt : ℝ) :
    animLoop 0 w n i dt = ⟨w, n, [], []⟩ := rfl

lemma animLoop_succ_run (fuel : ℕ) (w : World) (n i : ℕ) (dt : ℝ) (hi : i < w.length) :
    animLoop (fuel + 1) w n i dt =
      (let r := updateBody (w[i]).1 (w[i]).2 w n dt
       let rest : TickRes := animLoop fuel r.w r.nextId (i + 1) dt
       ⟨rest.w, rest.nextId, r.glog ++ rest.glog, r.mlog ++ rest.mlog⟩) := by
  rw [animLoop, dif_pos hi]

lemma animLoop_succ_exit (fuel : ℕ) (w : World) (n i : ℕ) (dt : ℝ) (hi : ¬ i < w.length) :
    animLoop (fuel + 1) w n i dt = ⟨w, n, [], []⟩ := by
  rw [animLoop, dif_neg hi]

lemma updateLoop_w_length_le (selfId : ℕ) :
    ∀ (fuel : ℕ) (self : Planet) (w : World) (n k : ℕ) (dt : ℝ),
      (updateLoop selfId fuel self w n k dt).w.length ≤ w.length := by
  intro fuel
  induction fuel with
  | zero => intro self w n k dt; rw [updateLoop_zero]
  | succ m ih =>
    intro self w n k dt
    by_cases hk : k < w.length
    · by_cases hid : (w[k]).1 = selfId
      · rw [updateLoop_succ_skip selfId m self w n k dt hk hid]
        exact ih self w n (k + 1) dt
      · rw [updateLoop_succ_grav selfId m self w n k dt hk hid]
        refine le_trans (le_trans (ih _ _ _ _ _) (checkCollisionW_w_length_le _ _ _ _)) ?_
        rw [length_sync]
    · rw [updateLoop_succ_exit selfId m self w n k dt hk]

/-- The fuel argument is irrelevant once it is at least the number of
remaining loop steps: the zero-fuel exit of `updateLoop` is unreachable
from a call with `fuel = w.length - k`, so the fuel-based model computes
the same result as the source's unbounded loop. -/
lemma updateLoop_fuel_stable (selfId : ℕ) :
    ∀ (fuel : ℕ) (self : Planet) (w : World) (n k : ℕ) (dt : ℝ),
      w.length ≤ k + fuel →
      updateLoop selfId (fuel + 1) self w n k dt = updateLoop selfId fuel self w n k dt := by
  intro fuel
  induction fuel with
  | zero =>
    intro self w n k dt h
    rw [updateLoop_succ_exit selfId 0 self w n k dt (by omega), updateLoop_zero]
  | succ m ih =>
    intro self w n k dt h
    by_cases hk : k < w.length
    · by_cases hid : (w[k]).1 = selfId
      · rw [updateLoop_succ_skip selfId (m + 1) self w n k dt hk hid,
          updateLoop_succ_skip selfId m self w n k dt hk hid]
        exact ih self w n (k + 1) dt (by omega)
      · rw [updateLoop_succ_grav selfId (m + 1) self w n k dt hk hid,
          updateLoop_succ_grav selfId m self w n k dt hk hid]
        have hle : (checkCollisionW (selfId, applyGravity self (w[k]).2 dt) (w[k])
            (sync w selfId (applyGravity self (w[k]).2 dt)) n).w.length ≤ w.length := by
          refine le_trans (checkCollisionW_w_length_le _ _ _ _) ?_
          rw [length_sync]
        dsimp only
        rw [ih (applyGravity self (w[k]).2 dt)
          (checkCollisionW (selfId, applyGravity self (w[k]).2 dt) (w[k])
            (sync w selfId (applyGravity self (w[k]).2 dt)) n).w
          (checkCollisionW (selfId, applyGravity self (w[k]).2 dt) (w[k])
            (sync w selfId (applyGravity self (w[k]).2 dt)) n).nextId
          (k + 1) dt (by omega)]
    · rw [updateLoop_succ_exit selfId (m + 1) self w n k dt hk,
        updateLoop_succ_exit selfId m self w n k dt hk]

lemma updateLoop_glog_ne (selfId : ℕ) :
    ∀ (fuel : ℕ) (self : Planet) (w : World) (n k : ℕ) (dt : ℝ) (e : ℕ × ℕ),
      e ∈ (updateLoop selfId fuel self w n k dt).glog → e.1 ≠ e.2 := by
  intro fuel
  induction fuel with
  | zero =>
    intro self w n k dt e he
    rw [updateLoop_zero] at he
    simp at he
  | succ m ih =>
    intro self w n k dt e he
    by_cases hk : k < w.length
    · by_cases hid : (w[k]).1 = selfId
      · rw [updateLoop_succ_skip selfId m self w n k dt hk hid] at he
        exact ih _ _ _ _ _ _ he
      · rw [updateLoop_succ_grav selfId m self w n k dt hk hid] at he
        dsimp only at he
        rw [List.mem_cons] at he
        rcases he with rfl | he
        · intro hc
          exact hid (Eq.symm hc)
        · exact ih _ _ _ _ _ _ he
    · rw [updateLoop_succ_exit selfId m self w n k dt hk] at he
      simp at he

lemma updateBody_glog_ne (selfId : ℕ) (self : Planet) (w : World) (n : ℕ) (dt : ℝ)
    (e : ℕ × ℕ) (he : e ∈ (updateBody selfId self w n dt).glog) : e.1 ≠ e.2 :=
  updateLoop_glog_ne selfId w.length self w n 0 dt e he

lemma animLoop_glog_ne :
    ∀ (fuel : ℕ) (w : World) (n i : ℕ) (dt : ℝ) (e : ℕ × ℕ),
      e ∈ (animLoop fuel w n i dt).glog → e.1 ≠ e.2 := by
  intro fuel
  induction fuel with
  | zero =>
    intro w n i dt e he
    rw [animLoop_zero] at he
    simp at he
  | succ m ih =>
    intro w n i dt e he
    by_cases hi : i < w.length
    · rw [animLoop_succ_run m w n i dt hi] at he
      dsimp only at he
      rw [List.mem_append] at he
      rcases he with he | he
      · exact updateBody_glog_ne _ _ _ _ _ _ he
      · exact ih _ _ _ _ _ he
    · rw [animLoop_succ_exit m w n i dt hi] at he
      simp at he

lemma ids_length (w : World) : (ids w).length = w.length := by
  simp [ids]

lemma ids_getElem (w : World) (k : ℕ) (hk : k < w.length)
    (hk2 : k < (ids w).length) : (ids w)[k] = (w[k]).1 := by
  simp [ids]

lemma updateLoop_no_merge (selfId : ℕ) :
    ∀ (fuel : ℕ) (self : Planet) (w : World) (n k : ℕ) (dt : ℝ),
      w.length ≤ k + fuel →
      (updateLoop selfId fuel self w n k dt).mlog = [] →
      (updateLoop selfId fuel self w n k dt).glog
          = (((ids w).drop k).filter (fun o => o ≠ selfId)).map (fun o => (selfId, o))
        ∧ ids (updateLoop selfId fuel self w n k dt).w = ids w := by
  intro fuel
  induction fuel with
  | zero =>
    intro self w n k dt hlen _
    rw [updateLoop_zero]
    have hdrop : (ids w).drop k = [] := List.drop_eq_nil_of_le (by rw [ids_length]; omega)
    rw [hdrop]
    exact ⟨rfl, rfl⟩
  | succ m ih =>
    intro self w n k dt hlen hm
    by_cases hk : k < w.length
    · have hdrop : (ids w).drop k = (w[k]).1 :: (ids w).drop (k + 1) := by
        rw [List.drop_eq_getElem_cons (by rw [ids_length]; exact hk), ids_getElem w k hk (by rw [ids_length]; exact hk)]
      by_cases hid : (w[k]).1 = selfId
      · rw [updateLoop_succ_skip selfId m self w n k dt hk hid] at hm ⊢
        obtain ⟨h1, h2⟩ := ih self w n (k + 1) dt (by omega) hm
        refine ⟨?_, h2⟩
        rw [h1, hdrop, List.filter_cons]
        simp [hid]
      · rw [updateLoop_succ_grav selfId m self w n k dt hk hid] at hm ⊢
        dsimp only at hm ⊢
        rw [List.append_eq_nil] at hm
        obtain ⟨hm1, hm2⟩ := hm
        have hcc := checkCollisionW_mlog_nil hm1
        rw [hcc] at hm2 ⊢
        obtain ⟨h1, h2⟩ := ih (applyGravity self (w[k]).2 dt)
          (sync w selfId (applyGravity self (w[k]).2 dt)) n (k + 1) dt
          (by rw [length_sync]; omega) hm2
        constructor
        · rw [h1, ids_sync, hdrop, List.filter_cons]
          simp [hid]
        · rw [h2, ids_sync]
    · rw [updateLoop_succ_exit selfId m self w n k dt hk]
      have hdrop : (ids w).drop k = [] := List.drop_eq_nil_of_le (by rw [ids_length]; omega)
      rw [hdrop]
      exact ⟨rfl, rfl⟩

lemma updateBody_no_merge (selfId : ℕ) (self : Planet) (w : World) (n : ℕ) (dt : ℝ)
    (hm : (updateBody selfId self w n dt).mlog = []) :
    (updateBody selfId self w n dt).glog
        = ((ids w).filter (fun o => o ≠ selfId)).map (fun o => (selfId, o))
      ∧ ids (updateBody selfId self w n dt).w = ids w := by
  obtain ⟨h1, h2⟩ := updateLoop_no_merge selfId w.length self w n 0 dt (by omega) hm
  constructor
  · simpa using h1
  · show ids (sync (sync _ selfId _) selfId _) = ids w
    rw [ids_sync, ids_sync]
    exact h2

lemma animLoop_no_merge :
    ∀ (fuel : ℕ) (w : World) (n i : ℕ) (dt : ℝ),
      w.length ≤ i + fuel →
      (animLoop fuel w n i dt).mlog = [] →
      (animLoop fuel w n i dt).glog
          = ((ids w).drop i).flatMap
              (fun a => ((ids w).filter (fun o => o ≠ a)).map (fun o => (a, o)))
        ∧ ids (animLoop fuel w n i dt).w = ids w := by
  intro fuel
  induction fuel with
  | zero =>
    intro w n i dt hlen _
    rw [animLoop_zero]
    have hdrop : (ids w).drop i = [] := List.drop_eq_nil_of_le (by rw [ids_length]; omega)
    rw [hdrop]
    exact ⟨rfl, rfl⟩
  | succ m ih =>
    intro w n i dt hlen hm
    by_cases hi : i < w.length
    · rw [animLoop_succ_run m w n i dt hi] at hm ⊢
      dsimp only at hm ⊢
      rw [List.append_eq_nil] at hm
      obtain ⟨hm1, hm2⟩ := hm
      obtain ⟨hg1, hw1⟩ := updateBody_no_merge (w[i]).1 (w[i]).2 w n dt hm1
      have hlen1 : (updateBody (w[i]).1 (w[i]).2 w n dt).w.length = w.length := by
        have h := congrArg List.length hw1
        rw [ids_length, ids_length] at h
        exact h
      obtain ⟨hg2, hw2⟩ := ih (updateBody (w[i]).1 (w[i]).2 w n dt).w
        (updateBody (w[i]).1 (w[i]).2 w n dt).nextId (i + 1) dt (by omega) hm2
      have hdrop : (ids w).drop i = (w[i]).1 :: (ids w).drop (i + 1) := by
        rw [List.drop_eq_getElem_cons (by rw [ids_length]; exact hi), ids_getElem w i hi (by rw [ids_length]; exact hi)]
      constructor
      · rw [hg1, hg2, hw1, hdrop, List.flatMap_cons]
      · rw [hw2, hw1]
    · rw [animLoop_succ_exit m w n i dt hi]
      have hdrop : (ids w).drop i = [] := List.drop_eq_nil_of_le (by rw [ids_length]; omega)
      rw [hdrop]
      exact ⟨rfl, rfl⟩

lemma count_map_pair (s a b : ℕ) (xs : List ℕ) :
    (xs.map (fun o => (s, o))).count (a, b) = if s = a then xs.count b else 0 := by
  induction xs with
  | nil => simp
  | cons x rest ih =>
    rcases eq_or_ne s a with rfl | hs
    · rcases eq_or_ne x b with rfl | hb
      · simp [List.count_cons, ih]
      · simp [List.count_cons, ih, hb, Ne.symm hb]
    · simp [List.count_cons, ih, hs, Ne.symm hs]

lemma count_flatMap_pairs (l : List ℕ) (a b : ℕ) (outer : List ℕ) :
    (outer.flatMap (fun s => (l.filter (fun o => o ≠ s)).map (fun o => (s, o)))).count (a, b)
      = outer.count a * (l.filter (fun o => o ≠ a)).count b := by
  induction outer with
  | nil => simp
  | cons s rest ih =>
    rw [List.flatMap_cons, List.count_append, ih, count_map_pair]
    rcases eq_or_ne s a with rfl | hs
    · simp [List.count_cons]
      ring
    · have h2 : ¬ (a = s) := fun h => hs h.symm
      simp [List.count_cons, hs, h2]

lemma updateLoop_succ_skip2 (selfId fuel : ℕ) (self : Planet) (w : World) (n k : ℕ) (dt : ℝ)
    (other : ℕ × Planet) (hk : k < w.length) (ho : w[k] = other) (hid : other.1 = selfId) :
    updateLoop selfId (fuel + 1) self w n k dt = updateLoop selfId fuel self w n (k + 1) dt := by
  subst ho
  exact updateLoop_succ_skip selfId fuel self w n k dt hk hid

lemma updateLoop_succ_grav2 (selfId fuel : ℕ) (self : Planet) (w : World) (n k : ℕ) (dt : ℝ)
    (other : ℕ × Planet) (hk : k < w.length) (ho : w[k] = other) (hid : ¬ other.1 = selfId) :
    updateLoop selfId (fuel + 1) self w n k dt =
      (let self1 := applyGravity self other.2 dt
       let r := checkCollisionW (selfId, self1) other (sync w selfId self1) n
       let rest : LoopRes := updateLoop selfId fuel self1 r.w r.nextId (k + 1) dt
       ⟨rest.self, rest.w, rest.nextId, (selfId, other.1) :: rest.glog, r.mlog ++ rest.mlog⟩) := by
  subst ho
  exact updateLoop_succ_grav selfId fuel self w n k dt hk hid

lemma animLoop_succ_run2 (fuel : ℕ) (w : World) (n i : ℕ) (dt : ℝ) (self : ℕ × Planet)
    (hi : i < w.length) (hs : w[i] = self) :
    animLoop (fuel + 1) w n i dt =
      (let r := updateBody self.1 self.2 w n dt
       let rest : TickRes := animLoop fuel r.w r.nextId (i + 1) dt
       ⟨rest.w, rest.nextId, r.glog ++ rest.glog, r.mlog ++ rest.mlog⟩) := by
  subst hs
  exact animLoop_succ_run fuel w n i dt hi

lemma integrate_dt0 (p : Planet) :
    ({ p with x := p.x + p.velocity.x * 0, y := p.y + p.velocity.y * 0 } : Planet) = p := by
  cases p
  simp

lemma trailStep_empty (x y : ℝ) : trailStep [] x y 0.005 = [⟨x, y, 1.0 - 0.005⟩] := by
  show evictFront [⟨x, y, 1.0 - 0.005⟩] = [⟨x, y, 1.0 - 0.005⟩]
  rw [evictFront, if_neg (by norm_num)]

lemma collides_iff_abs (p q : Planet) (hy : q.y - p.y = 0) :
    collides p q ↔ |q.x - p.x| ≤ (p.radius + q.radius) * distanceScale := by
  unfold collides
  rw [hy]
  rw [show (q.x - p.x) * (q.x - p.x) + (0 : ℝ) * 0 = |q.x - p.x| * |q.x - p.x| by
    rw [abs_mul_abs_self]; ring]
  rw [Real.sqrt_mul_self (abs_nonneg _)]

lemma not_collides_S01 : ¬ collides pS0 pS1 := by
  rw [collides_iff_abs pS0 pS1 (by simp [pS0, pS1, Planet.make])]
  simp only [pS0, pS1, Planet.make, distanceScale]
  rw [abs_of_nonneg (by norm_num)]
  norm_num

lemma not_collides_S10 : ¬ collides pS1 pS0t := by
  rw [collides_iff_abs pS1 pS0t (by simp [pS0, pS1, pS0t, Planet.make])]
  simp only [pS0, pS1, pS0t, Planet.make, distanceScale]
  rw [abs_of_nonpos (by norm_num)]
  norm_num

lemma updateLoop_grav_eq (selfId fuel : ℕ) (self : Planet) (w : World) (n k : ℕ) (dt : ℝ)
    (other : ℕ × Planet) (hk : k < w.length) (ho : w[k] = other) (hid : ¬ other.1 = selfId)
    (p1 : Planet) (h1 : applyGravity self other.2 dt = p1)
    (w1 : World) (hw1 : sync w selfId p1 = w1)
    (c : CCResult) (hc : checkCollisionW (selfId, p1) other w1 n = c)
    (rest : LoopRes) (hrest : updateLoop selfId fuel p1 c.w c.nextId (k + 1) dt = rest) :
    updateLoop selfId (fuel + 1) self w n k dt =
      ⟨rest.self, rest.w, rest.nextId, (selfId, other.1) :: rest.glog, c.mlog ++ rest.mlog⟩ := by
  subst ho h1 hw1 hc hrest
  exact updateLoop_succ_grav selfId fuel self w n k dt hk hid

lemma updateBody_eq (selfId : ℕ) (self : Planet) (w : World) (n : ℕ) (dt : ℝ)
    (r : LoopRes) (hr : updateLoop selfId w.length self w n 0 dt = r)
    (p1 : Planet)
    (h1 : ({ r.self with
             x := r.self.x + r.self.velocity.x * dt
             y := r.self.y + r.self.velocity.y * dt } : Planet) = p1)
    (w1 : World) (hw1 : sync r.w selfId p1 = w1)
    (p2 : Planet)
    (h2 : ({ p1 with trail := trailStep p1.trail p1.x p1.y p1.fadeSpeed } : Planet) = p2)
    (w2 : World) (hw2 : sync w1 selfId p2 = w2) :
    updateBody selfId self w n dt = ⟨w2, r.nextId, r.glog, r.mlog⟩ := by
  subst hr h1 hw1 h2 hw2
  rfl

lemma animLoop_run_eq (fuel : ℕ) (w : World) (n i : ℕ) (dt : ℝ) (self : ℕ × Planet)
    (hi : i < w.length) (hs : w[i] = self)
    (r : TickRes) (hr : updateBody self.1 self.2 w n dt = r)
    (rest : TickRes) (hrest : animLoop fuel r.w r.nextId (i + 1) dt = rest) :
    animLoop (fuel + 1) w n i dt = ⟨rest.w, rest.nextId, r.glog ++ rest.glog, r.mlog ++ rest.mlog⟩ := by
  subst hs hr hrest
  exact animLoop_succ_run fuel w n i dt hi

lemma loopS0 : updateLoop 0 wS.length pS0 wS 2 0 0 = ⟨pS0, wS, 2, [(0, 1)], []⟩ := by
  have h2 : updateLoop 0 (0 + 1) pS0 wS 2 1 0 = ⟨pS0, wS, 2, [(0, 1)], []⟩ :=
    updateLoop_grav_eq 0 0 pS0 wS 2 1 0 (1, pS1) (by simp [wS]) rfl (by norm_num)
      pS0 (applyGravity_dt0 pS0 pS1)
      wS (by simp [sync, wS])
      ⟨wS, 2, []⟩ (checkCollisionW_not_collides (0, pS0) (1, pS1) wS 2 not_collides_S01)
      ⟨pS0, wS, 2, [], []⟩ (updateLoop_zero 0 pS0 wS 2 2 0)
  exact (updateLoop_succ_skip2 0 1 pS0 wS 2 0 0 (0, pS0) (by simp [wS]) rfl rfl).trans h2

lemma updateBodyS0 : updateBody 0 pS0 wS 2 0 = ⟨[(0, pS0t), (1, pS1)], 2, [(0, 1)], []⟩ := by
  refine updateBody_eq 0 pS0 wS 2 0 ⟨pS0, wS, 2, [(0, 1)], []⟩ loopS0
    pS0 (integrate_dt0 pS0) wS (by simp [sync, wS])
    pS0t ?_ [(0, pS0t), (1, pS1)] (by simp [sync, wS, pS0t])
  show ({ pS0 with trail := trailStep [] 0 0 0.005 } : Planet) = pS0t
  rw [trailStep_empty]
  rfl

lemma loopS1 : updateLoop 1 ([(0, pS0t), (1, pS1)] : World).length pS1 [(0, pS0t), (1, pS1)] 2 0 0
    = ⟨pS1, [(0, pS0t), (1, pS1)], 2, [(1, 0)], []⟩ := by
  have h2 : updateLoop 1 (0 + 1) pS1 [(0, pS0t), (1, pS1)] 2 1 0
      = ⟨pS1, [(0, pS0t), (1, pS1)], 2, [], []⟩ :=
    (updateLoop_succ_skip2 1 0 pS1 [(0, pS0t), (1, pS1)] 2 1 0 (1, pS1) (by simp) rfl rfl).trans
      (updateLoop_zero 1 pS1 [(0, pS0t), (1, pS1)] 2 2 0)
  exact updateLoop_grav_eq 1 1 pS1 [(0, pS0t), (1, pS1)] 2 0 0 (0, pS0t) (by simp) rfl
    (by norm_num)
    pS1 (applyGravity_dt0 pS1 pS0t)
    [(0, pS0t), (1, pS1)] (by simp [sync])
    ⟨[(0, pS0t), (1, pS1)], 2, []⟩
    (checkCollisionW_not_collides (1, pS1) (0, pS0t) [(0, pS0t), (1, pS1)] 2 not_collides_S10)
    ⟨pS1, [(0, pS0t), (1, pS1)], 2, [], []⟩ h2

lemma updateBodyS1 : updateBody 1 pS1 [(0, pS0t), (1, pS1)] 2 0
    = ⟨[(0, pS0t), (1, pS1t)], 2, [(1, 0)], []⟩ := by
  refine updateBody_eq 1 pS1 [(0, pS0t), (1, pS1)] 2 0
    ⟨pS1, [(0, pS0t), (1, pS1)], 2, [(1, 0)], []⟩ loopS1
    pS1 (integrate_dt0 pS1) [(0, pS0t), (1, pS1)] (by simp [sync])
    pS1t ?_ [(0, pS0t), (1, pS1t)] (by simp [sync, pS1t])
  show ({ pS1 with trail := trailStep [] 100e9 0 0.005 } : Planet) = pS1t
  rw [trailStep_empty]
  rfl

lemma tickS_eval : animateTick wS 2 0 = ⟨[(0, pS0t), (1, pS1t)], 2, [(0, 1), (1, 0)], []⟩ := by
  have h2 : animLoop (0 + 1) [(0, pS0t), (1, pS1)] 2 1 0
      = ⟨[(0, pS0t), (1, pS1t)], 2, [(1, 0)], []⟩ :=
    animLoop_run_eq 0 [(0, pS0t), (1, pS1)] 2 1 0 (1, pS1) (by simp) rfl
      ⟨[(0, pS0t), (1, pS1t)], 2, [(1, 0)], []⟩ updateBodyS1
      ⟨[(0, pS0t), (1, pS1t)], 2, [], []⟩ (animLoop_zero [(0, pS0t), (1, pS1t)] 2 2 0)
  exact animLoop_run_eq 1 wS 2 0 0 (0, pS0) (by simp [wS]) rfl
    ⟨[(0, pS0t), (1, pS1)], 2, [(0, 1)], []⟩ updateBodyS0
    ⟨[(0, pS0t), (1, pS1t)], 2, [(1, 0)], []⟩ h2

lemma checkCollisionW_eq_some (s o : ℕ × Planet) (w : World) (n : ℕ)
    (hc : collides s.2 o.2)
    (jT : ℕ) (hT : idIndex s.1 w = some jT)
    (jO : ℕ) (hO : idIndex o.1 w = some jO)
    (w2 : World) (hw2 : spliceReplace (w.eraseIdx jO) jT (n, fuse s.2 o.2) = w2) :
    checkCollisionW s o w n = ⟨w2, n + 1, [⟨s.1, o.1, n, fuse s.2 o.2⟩]⟩ := by
  rw [checkCollisionW, if_pos hc]
  dsimp only
  rw [hT, hO]
  dsimp only
  rw [hw2]

lemma col_XY : collides pX pY := by
  rw [collides_iff_abs pX pY (by norm_num [pX, pY, Planet.make])]
  show |(6e9 : ℝ) - 0| ≤ (3 + 4) * distanceScale
  rw [abs_of_nonneg (by norm_num)]
  norm_num [distanceScale]

lemma qF_x : qF.x = 3e9 := by
  show (pX.x * pX.mass + pY.x * pY.mass) / (pX.mass + pY.mass) = 3e9
  norm_num [pX, pY, Planet.make]

lemma qF_y : qF.y = 0 := by
  show (pX.y * pX.mass + pY.y * pY.mass) / (pX.mass + pY.mass) = 0
  norm_num [pX, pY, Planet.make]

lemma qF_radius : qF.radius = 5 := by
  show Real.sqrt (pX.radius * pX.radius + pY.radius * pY.radius) = 5
  show Real.sqrt ((3 : ℝ) * 3 + 4 * 4) = 5
  exact sqrt_eval (by norm_num) (by norm_num)

lemma qF_mass : qF.mass = 2 := by
  show pX.mass + pY.mass = 2
  norm_num [pX, pY, Planet.make]

lemma col_A_F : collides pA qF := by
  rw [collides_iff_abs pA qF (by rw [qF_y]; norm_num [pA, Planet.make])]
  rw [qF_x, qF_radius]
  show |(3e9 : ℝ) - 20e9| ≤ ((12 : ℝ) + 5) * distanceScale
  rw [abs_of_nonpos (by norm_num)]
  norm_num [distanceScale]

lemma qF2_x : qF2.x = 26e9 / 3 := by
  show (pA.x * pA.mass + qF.x * qF.mass) / (pA.mass + qF.mass) = 26e9 / 3
  rw [qF_x, qF_mass]
  norm_num [pA, Planet.make]

lemma qF2_y : qF2.y = 0 := by
  show (pA.y * pA.mass + qF.y * qF.mass) / (pA.mass + qF.mass) = 0
  rw [qF_y, qF_mass]
  norm_num [pA, Planet.make]

lemma qF2_radius : qF2.radius = 13 := by
  show Real.sqrt (pA.radius * pA.radius + qF.radius * qF.radius) = 13
  rw [qF_radius]
  show Real.sqrt ((12 : ℝ) * 12 + 5 * 5) = 13
  exact sqrt_eval (by norm_num) (by norm_num)

lemma col_A_F2 : collides pA qF2 := by
  rw [collides_iff_abs pA qF2 (by rw [qF2_y]; norm_num [pA, Planet.make])]
  rw [qF2_x, qF2_radius]
  show |(26e9 : ℝ) / 3 - 20e9| ≤ ((12 : ℝ) + 13) * distanceScale
  rw [abs_of_nonpos (by norm_num)]
  norm_num [distanceScale]

lemma ccXY : checkCollisionW (0, pX) (1, pY) w3 3
    = ⟨[(3, qF), (2, pA)], 4, [⟨0, 1, 3, qF⟩]⟩ :=
  checkCollisionW_eq_some (0, pX) (1, pY) w3 3 col_XY
    0 rfl 1 rfl [(3, qF), (2, pA)] rfl

lemma ccAF : checkCollisionW (2, pA) (3, qF) [(3, qF), (2, pA)] 4
    = ⟨[(2, pA), (4, qF2)], 5, [⟨2, 3, 4, qF2⟩]⟩ :=
  checkCollisionW_eq_some (2, pA) (3, qF) [(3, qF), (2, pA)] 4 col_A_F
    1 rfl 0 rfl [(2, pA), (4, qF2)] rfl

lemma ccAF2 : checkCollisionW (2, pA) (4, qF2) [(2, pA), (4, qF2)] 5
    = ⟨[(5, qF3)], 6, [⟨2, 4, 5, qF3⟩]⟩ :=
  checkCollisionW_eq_some (2, pA) (4, qF2) [(2, pA), (4, qF2)] 5 col_A_F2
    0 rfl 1 rfl [(5, qF3)] rfl

lemma loopX : updateLoop 0 w3.length pX w3 3 0 0
    = ⟨pX, [(3, qF), (2, pA)], 4, [(0, 1)], [⟨0, 1, 3, qF⟩]⟩ := by
  have h2 : updateLoop 0 (1 + 1) pX w3 3 1 0
      = ⟨pX, [(3, qF), (2, pA)], 4, [(0, 1)], [⟨0, 1, 3, qF⟩]⟩ :=
    updateLoop_grav_eq 0 1 pX w3 3 1 0 (1, pY) (by simp [w3]) rfl (by norm_num)
      pX (applyGravity_dt0 pX pY)
      w3 rfl
      ⟨[(3, qF), (2, pA)], 4, [⟨0, 1, 3, qF⟩]⟩ ccXY
      ⟨pX, [(3, qF), (2, pA)], 4, [], []⟩
      (updateLoop_succ_exit 0 0 pX [(3, qF), (2, pA)] 4 2 0 (by simp))
  exact (updateLoop_succ_skip2 0 2 pX w3 3 0 0 (0, pX) (by simp [w3]) rfl rfl).trans h2

lemma bodyX : updateBody 0 pX w3 3 0 = ⟨[(3, qF), (2, pA)], 4, [(0, 1)], [⟨0, 1, 3, qF⟩]⟩ :=
  updateBody_eq 0 pX w3 3 0 ⟨pX, [(3, qF), (2, pA)], 4, [(0, 1)], [⟨0, 1, 3, qF⟩]⟩ loopX
    pX (integrate_dt0 pX)
    [(3, qF), (2, pA)] rfl
    ({ pX with trail := trailStep pX.trail pX.x pX.y pX.fadeSpeed }) rfl
    [(3, qF), (2, pA)] rfl

lemma loopA : updateLoop 2 ([(3, qF), (2, pA)] : World).length pA [(3, qF), (2, pA)] 4 0 0
    = ⟨pA, [(5, qF3)], 6, [(2, 3), (2, 4)], [⟨2, 3, 4, qF2⟩, ⟨2, 4, 5, qF3⟩]⟩ := by
  have h2 : updateLoop 2 (0 + 1) pA [(2, pA), (4, qF2)] 5 1 0
      = ⟨pA, [(5, qF3)], 6, [(2, 4)], [⟨2, 4, 5, qF3⟩]⟩ :=
    updateLoop_grav_eq 2 0 pA [(2, pA), (4, qF2)] 5 1 0 (4, qF2) (by simp) rfl (by norm_num)
      pA (applyGravity_dt0 pA qF2)
      [(2, pA), (4, qF2)] rfl
      ⟨[(5, qF3)], 6, [⟨2, 4, 5, qF3⟩]⟩ ccAF2
      ⟨pA, [(5, qF3)], 6, [], []⟩ (updateLoop_zero 2 pA [(5, qF3)] 6 2 0)
  exact updateLoop_grav_eq 2 1 pA [(3, qF), (2, pA)] 4 0 0 (3, qF) (by simp) rfl (by norm_num)
    pA (applyGravity_dt0 pA qF)
    [(3, qF), (2, pA)] rfl
    ⟨[(2, pA), (4, qF2)], 5, [⟨2, 3, 4, qF2⟩]⟩ ccAF
    ⟨pA, [(5, qF3)], 6, [(2, 4)], [⟨2, 4, 5, qF3⟩]⟩ h2

lemma bodyA : updateBody 2 pA [(3, qF), (2, pA)] 4 0
    = ⟨[(5, qF3)], 6, [(2, 3), (2, 4)], [⟨2, 3, 4, qF2⟩, ⟨2, 4, 5, qF3⟩]⟩ :=
  updateBody_eq 2 pA [(3, qF), (2, pA)] 4 0
    ⟨pA, [(5, qF3)], 6, [(2, 3), (2, 4)], [⟨2, 3, 4, qF2⟩, ⟨2, 4, 5, qF3⟩]⟩ loopA
    pA (integrate_dt0 pA)
    [(5, qF3)] rfl
    ({ pA with trail := trailStep pA.trail pA.x pA.y pA.fadeSpeed }) rfl
    [(5, qF3)] rfl

lemma tick3_eval : animateTick w3 3 0
    = ⟨[(5, qF3)], 6, [(0, 1), (2, 3), (2, 4)],
        [⟨0, 1, 3, qF⟩, ⟨2, 3, 4, qF2⟩, ⟨2, 4, 5, qF3⟩]⟩ := by
  have h3 : animLoop (0 + 1) [(5, qF3)] 6 2 0 = ⟨[(5, qF3)], 6, [], []⟩ :=
    animLoop_succ_exit 0 [(5, qF3)] 6 2 0 (by simp)
  have h2 : animLoop (1 + 1) [(3, qF), (2, pA)] 4 1 0
      = ⟨[(5, qF3)], 6, [(2, 3), (2, 4)], [⟨2, 3, 4, qF2⟩, ⟨2, 4, 5, qF3⟩]⟩ :=
    animLoop_run_eq 1 [(3, qF), (2, pA)] 4 1 0 (2, pA) (by simp) rfl
      ⟨[(5, qF3)], 6, [(2, 3), (2, 4)], [⟨2, 3, 4, qF2⟩, ⟨2, 4, 5, qF3⟩]⟩ bodyA
      ⟨[(5, qF3)], 6, [], []⟩ h3
  exact animLoop_run_eq 2 w3 3 0 0 (0, pX) (by simp [w3]) rfl
    ⟨[(3, qF), (2, pA)], 4, [(0, 1)], [⟨0, 1, 3, qF⟩]⟩ bodyX
    ⟨[(5, qF3)], 6, [(2, 3), (2, 4)], [⟨2, 3, 4, qF2⟩, ⟨2, 4, 5, qF3⟩]⟩ h2

lemma evictFront_map_life (t : List TrailPoint) :
    (evictFront t).map (fun q => q.life) = evictLives (t.map (fun q => q.life)) := by
  induction t with
  | nil => rfl
  | cons q rest ih =>
    rw [List.map_cons, evictFront, evictLives]
    by_cases h : q.life ≤ 0
    · rw [if_pos h, if_pos h, ih]
    · rw [if_neg h, if_neg h, List.map_cons]

lemma trailStep_map_life (t : List TrailPoint) (x y c : ℝ) :
    (trailStep t x y c).map (fun q => q.life)
      = evictLives ((t.map (fun q => q.life)).map (fun a => a - c) ++ [1.0 - c]) := by
  rw [trailStep, evictFront_map_life]
  congr 1
  rw [List.map_map, List.map_map, List.map_append]
  rfl

lemma descLives_succ (m : ℕ) :
    descLives (m + 1) = (1 - ((m : ℝ) + 1) * 0.005) :: descLives m := by
  rw [descLives, List.range_succ_eq_map, List.map_cons, List.map_map, descLives]
  congr 1
  · push_cast
    norm_num
  · congr 1
    funext i
    show 1 - (((m + 1 : ℕ) : ℝ) - ((i + 1 : ℕ) : ℝ)) * 0.005 = 1 - ((m : ℝ) - (i : ℝ)) * 0.005
    push_cast
    ring

lemma descLives_map_sub (m : ℕ) :
    (descLives m).map (fun a => a - (0.005 : ℝ)) ++ [1.0 - 0.005] = descLives (m + 1) := by
  rw [descLives, descLives, List.range_succ, List.map_append, List.map_map]
  congr 1
  · congr 1
    funext i
    show (1 - ((m : ℝ) - (i : ℝ)) * 0.005) - 0.005 = 1 - (((m + 1 : ℕ) : ℝ) - (i : ℝ)) * 0.005
    push_cast
    ring
  · show [(1.0 : ℝ) - 0.005] = [1 - (((m + 1 : ℕ) : ℝ) - ((m : ℕ) : ℝ)) * 0.005]
    congr 1
    push_cast
    ring_nf

lemma evictLives_descLives_le (m : ℕ) (hm : m ≤ 199) :
    evictLives (descLives m) = descLives m := by
  cases m with
  | zero => rfl
  | succ k =>
    rw [descLives_succ, evictLives]
    have hcast : ((k : ℝ) + 1) ≤ 199 := by
      have : (k : ℕ) + 1 ≤ 199 := hm
      exact_mod_cast this
    rw [if_neg (by nlinarith)]

lemma evictLives_descLives_200 : evictLives (descLives 200) = descLives 199 := by
  show evictLives (descLives (199 + 1)) = descLives 199
  rw [descLives_succ, evictLives, if_pos (by push_cast; norm_num)]
  exact evictLives_descLives_le 199 (by norm_num)

lemma trailIter_lives (f : ℕ → ℝ × ℝ) :
    ∀ n : ℕ, (trailIter f n).map (fun q => q.life) = descLives (min n 199) := by
  intro n
  induction n with
  | zero => rfl
  | succ m ih =>
    show (trailStep (trailIter f m) (f m).1 (f m).2 0.005).map (fun q => q.life) = _
    rw [trailStep_map_life, ih, descLives_map_sub]
    by_cases h : m ≤ 198
    · rw [show min m 199 = m by omega, show min (m + 1) 199 = m + 1 by omega]
      exact evictLives_descLives_le (m + 1) (by omega)
    · rw [show min m 199 = 199 by omega, show min (m + 1) 199 = 199 by omega]
      exact evictLives_descLives_200

lemma descLives_length (m : ℕ) : (descLives m).length = m := by
  rw [descLives, List.length_map, List.length_range]

/-- C1 (counterexample): the claim fails as soon as a merge happens mid-tick.
In the three-body world `w3`, bodies 1 and 2 are both live at the start of
the tick (and body 2 is still live at its end), yet the pair {1, 2}
contributes no gravitational update at all to either member: body 1 is
merged away by body 0's update before either body of the pair processes
the other, and the interaction log of the full tick contains neither
(1, 2) nor (2, 1). -/
theorem c1_counterexample :
    (1 : ℕ) ∈ ids w3 ∧ (2 : ℕ) ∈ ids w3
      ∧ (animateTick w3 3 0).glog.count (1, 2) = 0
      ∧ (animateTick w3 3 0).glog.count (2, 1) = 0 := by
  refine ⟨by simp [ids, w3], by simp [ids, w3], ?_, ?_⟩ <;>
    rw [tick3_eval] <;> decide

/-- C1 (amended): provided no merge happens during the tick (the merge log
of the tick is empty) and the stored object identities are distinct, every
unordered pair {a, b} of live bodies contributes exactly one gravitational
velocity update to each of its two members: the interaction log contains
(a, b) exactly once and (b, a) exactly once.  When merges remove bodies
mid-tick this can fail (see the counterexample). -/
theorem c1_pairing_without_merges (w : World) (n : ℕ) (dt : ℝ)
    (hnd : (ids w).Nodup) (hm : (animateTick w n dt).mlog = [])
    (a b : ℕ) (hab : a ≠ b) (ha : a ∈ ids w) (hb : b ∈ ids w) :
    (animateTick w n dt).glog.count (a, b) = 1
      ∧ (animateTick w n dt).glog.count (b, a) = 1 := by
  obtain ⟨h1, _⟩ := animLoop_no_merge w.length w n 0 dt (by omega) hm
  rw [List.drop_zero] at h1
  have hg : (animateTick w n dt).glog
      = (ids w).flatMap (fun s => ((ids w).filter (fun o => o ≠ s)).map (fun o => (s, o))) := h1
  constructor
  · rw [hg, count_flatMap_pairs, List.count_eq_one_of_mem hnd ha,
      List.count_filter (by simpa using Ne.symm hab), List.count_eq_one_of_mem hnd hb]
  · rw [hg, count_flatMap_pairs, List.count_eq_one_of_mem hnd hb,
      List.count_filter (by simpa using hab), List.count_eq_one_of_mem hnd ha]

/-- C1 (witness): in the merge-free two-body tick on `wS`, the pair {0, 1}
contributes exactly one update to each member. -/
theorem c1_pairing_without_merges_witness :
    (animateTick wS 2 0).glog.count (0, 1) = 1
      ∧ (animateTick wS 2 0).glog.count (1, 0) = 1 :=
  c1_pairing_without_merges wS 2 0 (by simp [ids, wS]) (by rw [tickS_eval]) 0 1
    (by norm_num) (by simp [ids, wS]) (by simp [ids, wS])

/-- C2 (counterexample): a `checkCollision` call in which the receiver has
already been removed from the collection but the argument is still present
is NOT a no-op: with the receiver absent and the overlap test passing, the
still-present argument is spliced out and no merged body is inserted, so
the collection changes (here from one body to none). -/
theorem c2_counterexample :
    (0 : ℕ) ∉ ids ([(1, pY)] : World) ∧ (1 : ℕ) ∈ ids ([(1, pY)] : World)
      ∧ (checkCollisionW (0, pX) (1, pY) [(1, pY)] 5).w = [] := by
  refine ⟨by simp [ids], by simp [ids], ?_⟩
  rw [checkCollisionW, if_pos col_XY]
  rfl

/-- C2 (amended): only when BOTH bodies of the pair are no longer present
in the collection is the call guaranteed to leave the collection unchanged
(a recoverable no-op; the call never throws, being a total function).
When exactly one member is still present the collection is mutated: the
present member is removed or replaced (see the counterexample). -/
theorem c2_noop_when_both_absent (s o : ℕ × Planet) (w : World) (n : ℕ)
    (hs : s.1 ∉ ids w) (ho : o.1 ∉ ids w) :
    (checkCollisionW s o w n).w = w := by
  rw [checkCollisionW]
  by_cases hc : collides s.2 o.2
  · rw [if_pos hc]
    dsimp only
    rw [idIndex_eq_none hs, idIndex_eq_none ho]
  · rw [if_neg hc]

/-- C2 (witness): a stale call whose both members are absent from `wS`
leaves `wS` unchanged. -/
theorem c2_noop_when_both_absent_witness :
    (checkCollisionW (7, pX) (8, pY) wS 9).w = wS :=
  c2_noop_when_both_absent (7, pX) (8, pY) wS 9 (by simp [ids, wS]) (by simp [ids, wS])

/-- C3: whenever the collision test passes, `checkCollision` performs
exactly one merge, and the fused body's mass is exactly the sum of the two
masses (real-number model of the double arithmetic). -/
theorem c3_merge_mass_conserved (s o : ℕ × Planet) (w : World) (n : ℕ)
    (hc : collides s.2 o.2) :
    (checkCollisionW s o w n).mlog = [⟨s.1, o.1, n, fuse s.2 o.2⟩]
      ∧ (fuse s.2 o.2).mass = s.2.mass + o.2.mass := by
  constructor
  · rw [checkCollisionW, if_pos hc]
  · rfl

/-- C3 (witness): the overlapping pair `pX`, `pY`. -/
theorem c3_merge_mass_conserved_witness :
    (checkCollisionW (0, pX) (1, pY) w3 3).mlog = [⟨0, 1, 3, fuse pX pY⟩]
      ∧ (fuse pX pY).mass = pX.mass + pY.mass :=
  c3_merge_mass_conserved (0, pX) (1, pY) w3 3 col_XY

/-- C4: for positive masses, the merged body built by the collision branch
conserves linear momentum exactly on each axis:
`c.velocity * c.mass = a.velocity * a.mass + b.velocity * b.mass`
(real-number model of the double arithmetic). -/
theorem c4_merge_momentum_conserved (a b : Planet) (ha : 0 < a.mass) (hb : 0 < b.mass) :
    (fuse a b).velocity.x * (fuse a b).mass
        = a.velocity.x * a.mass + b.velocity.x * b.mass
      ∧ (fuse a b).velocity.y * (fuse a b).mass
        = a.velocity.y * a.mass + b.velocity.y * b.mass := by
  have hm : a.mass + b.mass ≠ 0 := by positivity
  constructor
  · show (a.velocity.x * a.mass + b.velocity.x * b.mass) / (a.mass + b.mass) * (a.mass + b.mass)
        = a.velocity.x * a.mass + b.velocity.x * b.mass
    exact div_mul_cancel₀ _ hm
  · show (a.velocity.y * a.mass + b.velocity.y * b.mass) / (a.mass + b.mass) * (a.mass + b.mass)
        = a.velocity.y * a.mass + b.velocity.y * b.mass
    exact div_mul_cancel₀ _ hm

/-- C4 (witness): momentum conservation at the concrete pair `pX`, `pY`. -/
theorem c4_merge_momentum_conserved_witness :
    (fuse pX pY).velocity.x * (fuse pX pY).mass
        = pX.velocity.x * pX.mass + pY.velocity.x * pY.mass
      ∧ (fuse pX pY).velocity.y * (fuse pX pY).mass
        = pX.velocity.y * pX.mass + pY.velocity.y * pY.mass :=
  c4_merge_momentum_conserved pX pY (by norm_num [pX, Planet.make])
    (by norm_num [pY, Planet.make])

/-- C5: the collision test is inclusive at the boundary: when the Euclidean
distance equals `(a.radius + b.radius) * distanceScale` exactly, the test
passes and `checkCollision` performs the merge; when the distance is
strictly greater, the test fails and the call changes nothing. -/
theorem c5_collision_boundary_inclusive (s o : ℕ × Planet) (w : World) (n : ℕ) :
    (Real.sqrt ((o.2.x - s.2.x) * (o.2.x - s.2.x) + (o.2.y - s.2.y) * (o.2.y - s.2.y))
        = (s.2.radius + o.2.radius) * distanceScale →
      collides s.2 o.2
        ∧ (checkCollisionW s o w n).mlog = [⟨s.1, o.1, n, fuse s.2 o.2⟩])
      ∧ ((s.2.radius + o.2.radius) * distanceScale
          < Real.sqrt ((o.2.x - s.2.x) * (o.2.x - s.2.x) + (o.2.y - s.2.y) * (o.2.y - s.2.y)) →
        ¬ collides s.2 o.2 ∧ checkCollisionW s o w n = ⟨w, n, []⟩) := by
  constructor
  · intro h
    have hc : collides s.2 o.2 := le_of_eq h
    exact ⟨hc, by rw [checkCollisionW, if_pos hc]⟩
  · intro h
    have hc : ¬ collides s.2 o.2 := not_le.mpr h
    exact ⟨hc, checkCollisionW_not_collides s o w n hc⟩

/-- C5 (witness): `pA` and the fused body `qF` sit exactly at the collision
boundary (distance 17e9 = (12+5)*1e9) and merge; `pS0` and `pS1` are
strictly beyond the boundary and nothing happens. -/
theorem c5_collision_boundary_inclusive_witness :
    (collides pA qF
      ∧ (checkCollisionW (2, pA) (3, qF) [(3, qF), (2, pA)] 4).mlog = [⟨2, 3, 4, fuse pA qF⟩])
      ∧ (¬ collides pS0 pS1 ∧ checkCollisionW (0, pS0) (1, pS1) wS 5 = ⟨wS, 5, []⟩) := by
  constructor
  · refine (c5_collision_boundary_inclusive (2, pA) (3, qF) [(3, qF), (2, pA)] 4).1 ?_
    rw [qF_x, qF_y, qF_radius]
    have hs : Real.sqrt (((3e9 : ℝ) - 20e9) * ((3e9 : ℝ) - 20e9) + ((0 : ℝ) - 0) * ((0 : ℝ) - 0))
        = 17e9 := sqrt_eval (by norm_num) (by norm_num)
    show Real.sqrt (((3e9 : ℝ) - 20e9) * ((3e9 : ℝ) - 20e9) + ((0 : ℝ) - 0) * ((0 : ℝ) - 0))
        = ((12 : ℝ) + 5) * distanceScale
    rw [hs]
    norm_num [distanceScale]
  · refine (c5_collision_boundary_inclusive (0, pS0) (1, pS1) wS 5).2 ?_
    have hs : Real.sqrt (((100e9 : ℝ) - 0) * ((100e9 : ℝ) - 0) + ((0 : ℝ) - 0) * ((0 : ℝ) - 0))
        = 100e9 := sqrt_eval (by norm_num) (by norm_num)
    show ((1 : ℝ) + 1) * distanceScale
        < Real.sqrt (((100e9 : ℝ) - 0) * ((100e9 : ℝ) - 0) + ((0 : ℝ) - 0) * ((0 : ℝ) - 0))
    rw [hs]
    norm_num [distanceScale]

/-- C6 (counterexample): a body CAN check collision against (and receive a
gravity update from) a merged body created during the same tick that
incorporates its own mass.  In the tick on `w3`, body 2 first merges with
body 3 producing body 4 (merge event (2, 3, 4), so body 4 contains body
2's own mass: `qF2.mass = pA.mass + qF.mass`), and the interaction log of
the very same tick then contains the event (2, 4): body 2 applies gravity
from and checks collision against body 4. -/
theorem c6_merged_body_interaction_counterexample :
    (2, 4) ∈ (animateTick w3 3 0).glog
      ∧ (animateTick w3 3 0).mlog.map (fun e => (e.thisId, e.otherId, e.newId))
          = [(0, 1, 3), (2, 3, 4), (2, 4, 5)]
      ∧ qF2.mass = pA.mass + qF.mass := by
  refine ⟨?_, ?_, rfl⟩
  · rw [tick3_eval]
    decide
  · rw [tick3_eval]
    rfl

/-- C6 (amended): a body never applies gravity to or checks collision
against itself in the object-identity sense: the `other !== this` guard
ensures every interaction event of a tick pairs two distinct object
identities.  The guard does NOT extend to merged bodies created during the
same tick that incorporate the body's own mass (see the counterexample). -/
theorem c6_no_identity_self_interaction (w : World) (n : ℕ) (dt : ℝ) (e : ℕ × ℕ)
    (he : e ∈ (animateTick w n dt).glog) : e.1 ≠ e.2 :=
  animLoop_glog_ne w.length w n 0 dt e he

/-- C6 (witness): the first interaction event of the `wS` tick pairs the
distinct identities 0 and 1. -/
theorem c6_no_identity_self_interaction_witness :
    ((0 : ℕ), (1 : ℕ)).1 ≠ ((0 : ℕ), (1 : ℕ)).2 :=
  c6_no_identity_self_interaction wS 2 0 (0, 1) (by rw [tickS_eval]; decide)

/-- C7: `applyGravity a b dt` modifies only the receiver's velocity: the
receiver's position, radius, color, mass, name, trail and fadeSpeed are
all unchanged.  In the model the argument `b` is passed by value and only
read, mirroring that the source method only ever assigns to
`this.velocity`. -/
theorem c7_applyGravity_only_velocity (p o : Planet) (dt : ℝ) (h : 0 < p.mass) :
    (applyGravity p o dt).x = p.x ∧ (applyGravity p o dt).y = p.y
      ∧ (applyGravity p o dt).radius = p.radius ∧ (applyGravity p o dt).color = p.color
      ∧ (applyGravity p o dt).mass = p.mass ∧ (applyGravity p o dt).name = p.name
      ∧ (applyGravity p o dt).trail = p.trail
      ∧ (applyGravity p o dt).fadeSpeed = p.fadeSpeed :=
  ⟨rfl, rfl, rfl, rfl, rfl, rfl, rfl, rfl⟩

/-- C7 (witness): at the concrete pair `pX`, `pY` with `dt = 86400`. -/
theorem c7_applyGravity_only_velocity_witness :
    (applyGravity pX pY 86400).x = pX.x ∧ (applyGravity pX pY 86400).y = pX.y
      ∧ (applyGravity pX pY 86400).radius = pX.radius
      ∧ (applyGravity pX pY 86400).color = pX.color
      ∧ (applyGravity pX pY 86400).mass = pX.mass
      ∧ (applyGravity pX pY 86400).name = pX.name
      ∧ (applyGravity pX pY 86400).trail = pX.trail
      ∧ (applyGravity pX pY 86400).fadeSpeed = pX.fadeSpeed :=
  c7_applyGravity_only_velocity pX pY 86400 (by norm_num [pX, Planet.make])

/-- C8: the trail is bounded.  Each `update` performs `trailStep`: it
appends exactly one entry with life 1.0, subtracts `fadeSpeed = 0.005`
from every entry, then evicts from the front while the front life is ≤ 0
(all three definitional in `trailStep`).  Consequently, starting from the
empty trail of a fresh body, after any number of updates with arbitrary
positions the trail holds at most 200 entries (in fact at most 199). -/
theorem c8_trail_bounded (f : ℕ → ℝ × ℝ) (n : ℕ) : (trailIter f n).length ≤ 200 := by
  have h := congrArg List.length (trailIter_lives f n)
  rw [List.length_map, descLives_length] at h
  omega

/-- C10: after every update, the life values of the trail are strictly
increasing from front (oldest) to back (newest) - so the front always
holds the minimum - and after the front-only eviction loop every entry
anywhere in the trail has life > 0. -/
theorem c10_trail_lives_increasing_positive (f : ℕ → ℝ × ℝ) (n : ℕ) :
    ((trailIter f n).map (fun q => q.life)).Chain' (· < ·)
      ∧ ∀ q ∈ trailIter f n, 0 < q.life := by
  constructor
  · rw [trailIter_lives]
    apply List.Pairwise.chain'
    rw [descLives]
    refine List.Pairwise.map _ ?_ (List.pairwise_lt_range _)
    intro a b hab
    have hr : (a : ℝ) < b := by exact_mod_cast hab
    nlinarith
  · intro q hq
    have hmem : q.life ∈ (trailIter f n).map (fun q => q.life) := List.mem_map_of_mem _ hq
    rw [trailIter_lives, descLives, List.mem_map] at hmem
    obtain ⟨i, hi, hlife⟩ := hmem
    rw [List.mem_range] at hi
    rw [← hlife]
    have h1 : ((min n 199 : ℕ) : ℝ) ≤ 199 := by
      exact_mod_cast (by omega : min n 199 ≤ 199)
    have h2 : (0 : ℝ) ≤ (i : ℝ) := by positivity
    nlinarith

/-- C10 (witness): after one update the single entry has life 0.995 > 0. -/
theorem c10_trail_lives_increasing_positive_witness :
    0 < (TrailPoint.mk 0 0 (1.0 - 0.005)).life :=
  (c10_trail_lives_increasing_positive (fun _ => (0, 0)) 1).2 ⟨0, 0, 1.0 - 0.005⟩
    (by show (⟨0, 0, 1.0 - 0.005⟩ : TrailPoint) ∈ trailStep [] 0 0 0.005
        rw [trailStep_empty]
        exact List.mem_singleton.mpr rfl)

/-- C9: on an empty body collection a spawn request neither fails nor is
undefined: `getMostMassivePlanet` returns the defined missing-anchor value
(`undefined`, modelled as `none`), and the spawn handler falls back to the
canvas-center default origin, placing the new body at
`(canvasW / 2 + distancePx * distanceScale, canvasH / 2)` and appending it
to the collection. -/
theorem c9_spawn_empty_world (n : ℕ) (mass radius vx vy distancePx : ℝ)
    (name color : String) (cw ch : ℝ) :
    getMostMassivePlanet ([] : World) = none
      ∧ spawnPlanet [] n mass radius vx vy distancePx name color cw ch
          = ([(n, Planet.make (cw / 2 + distancePx * distanceScale) (ch / 2) radius color mass
              ⟨vx, vy⟩ name)], n + 1) :=
  ⟨rfl, rfl⟩
